import Mathlib

set_option linter.unusedVariables false

/-
Shallow embedding of the firebase-auth-lite `Auth` class (src/src/main.js).

The source file contains two revisions of the library, separated by a
document marker: the first revision (lines 1-449, the one exercised by
test/main.test.js) is embedded under namespace `V1`, the second revision
(lines 450-906) under namespace `V2`.  They share the data model and the
single-flight entry logic of `refreshIdToken`; they differ in how a
successful refresh writes the store (V1 `persistSession` always notifies
listeners, V2 `setState(..., true, false)` suppresses notification) and in
the constructor (V1 adopts the persisted session and fetches the profile
directly; V2 refreshes first and converts a TOKEN_EXPIRED refresh failure
into a silent sign-out).

Modelling conventions:
  - `localStorage` is restricted to the three keys this instance touches
    (`Auth:User:*`, `Auth:SessionId:*`, `Auth:LinkAccount:*`), each held as
    a typed optional field; JSON serialisation round-trips are the identity.
  - every remote call is represented by the endpoint name appended to
    `apiCalls`, with its result supplied as an explicit
    `Except String _` parameter (the classified error or the parsed body).
  - listener callbacks are opaque identifiers (`Nat`); an emitted
    notification is recorded as a `(listener, value)` pair in `notes`.
  - time is an explicit `now : Int` millisecond timestamp.
  - the cooperative single-threaded concurrency of `refreshIdToken` is a
    two-phase machine: each concurrently issued invocation first runs its
    synchronous entry block (`startInv`: staleness check, join-or-start on
    the in-flight handle, with no suspension point between the check and
    the set), and then the single in-flight network call settles
    (`settle`: the leader resumes, writes the store on success, and the
    `finally` clause clears the handle).
-/

namespace FirebaseAuthLite

/-- The `tokenManager` sub-record of a session. -/
structure TokenManager where
  idToken : String
  refreshToken : String
  expiresAt : Int
deriving Repr, DecidableEq

/-- A signed-in session: opaque profile fields plus the reserved
`tokenManager` field. -/
structure Session where
  profile : List (String × String)
  tokenManager : TokenManager
deriving Repr, DecidableEq

/-- Parsed body of a successful `token` endpoint response (snake-case field
names as returned by the secure-token API, plus the derived `expiresAt`). -/
structure TokenData where
  id_token : String
  refresh_token : String
  expiresAt : Int
deriving Repr, DecidableEq

/-- Profile fields returned by the `lookup` endpoint (`users[0]`, with
`kind` already deleted). -/
abbrev Profile := List (String × String)

/-- The observable state of one `Auth` instance: in-memory fields, the
three storage keys it owns, and the recorded effect trace (remote calls,
listener notifications, handle clears, navigation). -/
structure MState where
  user : Option Session
  listeners : List Nat
  handle : Bool
  storedUser : Option Session
  storedSessionId : Option String
  storedLinkAccount : Option Bool
  apiCalls : List String
  notes : List (Nat × Option Session)
  handleClears : Nat
  navTo : Option String
deriving Repr, DecidableEq

instance {ε α : Type} [DecidableEq ε] [DecidableEq α] : DecidableEq (Except ε α) := fun a b =>
  match a, b with
  | Except.ok x, Except.ok y =>
    if h : x = y then isTrue (by rw [h]) else isFalse (by intro hc; cases hc; exact h rfl)
  | Except.error x, Except.error y =>
    if h : x = y then isTrue (by rw [h]) else isFalse (by intro hc; cases hc; exact h rfl)
  | Except.ok _, Except.error _ => isFalse (by intro hc; cases hc)
  | Except.error _, Except.ok _ => isFalse (by intro hc; cases hc)

/-- `emit()`: call every registered listener with the current user. -/
def emit (s : MState) : MState :=
  { s with notes := s.notes ++ s.listeners.map (fun l => (l, s.user)) }

/-- `listen(cb)`: register a listener (push onto the listeners array). -/
def listen (cb : Nat) (s : MState) : MState :=
  { s with listeners := s.listeners ++ [cb] }

/-- The unbind closure returned by `listen`:
`this.listeners = this.listeners.filter(fn => fn !== cb)`. -/
def unsubscribe (cb : Nat) (s : MState) : MState :=
  { s with listeners := s.listeners.filter (fun fn => fn ≠ cb) }

/-- Number of notifications delivered to listener `g` in a note trace. -/
def notesTo (g : Nat) (l : List (Nat × Option Session)) : Nat :=
  (l.filter (fun p => p.1 = g)).length

/-- Rename the `token` endpoint response fields to the names used in the
app (the `tokenManager` built inside `refreshIdToken`). -/
def newTokenManager (d : TokenData) : TokenManager :=
  { idToken := d.id_token, refreshToken := d.refresh_token, expiresAt := d.expiresAt }

/-- What one `refreshIdToken()` invocation does in its synchronous entry
block, before any suspension point. -/
inductive Role
  /-- `this.user` is null: reading `this.user.tokenManager` throws. -/
  | noUser
  /-- `Date.now() < this.user.tokenManager.expiresAt`: return at once. -/
  | fresh
  /-- a request is already in flight: await it and return. -/
  | joiner
  /-- no request in flight: set the handle and issue the network call. -/
  | leader
deriving Repr, DecidableEq

/-- The synchronous entry block of `refreshIdToken` (identical in both
revisions): staleness check, then check-and-set of the in-flight handle
with no `await` in between. -/
def startInv (now : Int) (s : MState) : MState × Role :=
  match s.user with
  | none => (s, Role.noUser)
  | some u =>
    if now < u.tokenManager.expiresAt then (s, Role.fresh)
    else if s.handle then (s, Role.joiner)
    else ({ s with handle := true, apiCalls := s.apiCalls ++ ["token"] }, Role.leader)

/-- Run the entry blocks of `n` concurrently issued `refreshIdToken`
invocations, in issue order, before the in-flight call settles. -/
def startMany (now : Int) : Nat → MState → MState × List Role
  | 0, s => (s, [])
  | n + 1, s =>
    let p := startInv now s
    let q := startMany now n p.1
    (q.1, p.2 :: q.2)

/-- The value an invocation of `refreshIdToken` resolves or rejects with,
collapsed to success/failure identity: a leader or joiner shares the
settled outcome of the single in-flight call. -/
def roleOutcome (apiRes : Except String TokenData) : Role → Except String Unit
  | Role.noUser => Except.error "TypeError: cannot read tokenManager of null"
  | Role.fresh => Except.ok ()
  | Role.joiner => apiRes.map (fun _ => ())
  | Role.leader => apiRes.map (fun _ => ())

namespace V1

/-- Revision 1 `persistSession(userData)`: write the storage key, set
`this.user`, and `emit()` (it always notifies). -/
def persistSession (s : MState) (u : Session) : MState :=
  emit { s with storedUser := some u, user := some u }

/-- Revision 1 `signOut()`: remove the storage key, clear `this.user`,
`emit()`. -/
def signOut (s : MState) : MState :=
  emit { s with storedUser := none, user := none }

/-- Settlement of the single in-flight refresh call in revision 1: on
success the leader persists the old session with only `tokenManager`
replaced (notifying, because `persistSession` emits); the `finally` clause
clears `refreshRequest` exactly once. -/
def settle (apiRes : Except String TokenData) (s : MState) : MState :=
  match apiRes, s.user with
  | Except.ok d, some u =>
    let s2 := persistSession s { profile := u.profile, tokenManager := newTokenManager d }
    { s2 with handle := false, handleClears := s2.handleClears + 1 }
  | Except.ok _, none =>
    { s with handle := false, handleClears := s.handleClears + 1 }
  | Except.error _, _ =>
    { s with handle := false, handleClears := s.handleClears + 1 }

/-- `n` concurrently issued revision-1 `refreshIdToken()` invocations:
all entry blocks run, then the in-flight call (if one was issued) settles
with `apiRes`; returns the final state and the outcome of each invocation. -/
def runRefresh (now : Int) (apiRes : Except String TokenData) (n : Nat) (s : MState) :
    MState × List (Except String Unit) :=
  let p := startMany now n s
  let s2 := if Role.leader ∈ p.2 then settle apiRes p.1 else p.1
  (s2, p.2.map (roleOutcome apiRes))

/-- A single (sequential) `refreshIdToken()` call. -/
def refreshIdToken (now : Int) (apiRes : Except String TokenData) (s : MState) :
    MState × Except String Unit :=
  let p := runRefresh now apiRes 1 s
  (p.1, p.2.headD (Except.ok ()))

end V1

namespace V2

/-- Revision 2 `setState(userData, persist, emit)`: set `this.user`; if
`persist`, write (or remove, when null) the storage key; if `emit`,
notify the listeners. -/
def setState (s : MState) (u : Option Session) (persist notify : Bool) : MState :=
  let s1 := { s with user := u }
  let s2 := if persist then { s1 with storedUser := u } else s1
  if notify then emit s2 else s2

/-- Revision 2 `signOut()`: `return this.setState(null)` (persist and
notify both default to true). -/
def signOut (s : MState) : MState :=
  setState s none true true

/-- Settlement of the single in-flight refresh call in revision 2: the
`.then` continuation builds the renamed `tokenManager` and writes it with
`setState({...this.user, tokenManager}, true, false)` — persisted, not
notified; the `finally` clause clears `_ref` exactly once. -/
def settle (apiRes : Except String TokenData) (s : MState) : MState :=
  match apiRes, s.user with
  | Except.ok d, some u =>
    let s2 := setState s (some { profile := u.profile, tokenManager := newTokenManager d }) true false
    { s2 with handle := false, handleClears := s2.handleClears + 1 }
  | Except.ok _, none =>
    { s with handle := false, handleClears := s.handleClears + 1 }
  | Except.error _, _ =>
    { s with handle := false, handleClears := s.handleClears + 1 }

/-- `n` concurrently issued revision-2 `refreshIdToken()` invocations. -/
def runRefresh (now : Int) (apiRes : Except String TokenData) (n : Nat) (s : MState) :
    MState × List (Except String Unit) :=
  let p := startMany now n s
  let s2 := if Role.leader ∈ p.2 then settle apiRes p.1 else p.1
  (s2, p.2.map (roleOutcome apiRes))

/-- A single (sequential) `refreshIdToken()` call. -/
def refreshIdToken (now : Int) (apiRes : Except String TokenData) (s : MState) :
    MState × Except String Unit :=
  let p := runRefresh now apiRes 1 s
  (p.1, p.2.headD (Except.ok ()))

end V2

/-- A freshly constructed instance over the given persisted storage
contents, before the asynchronous load runs. -/
def initialState (storedUser : Option Session) (storedSessionId : Option String)
    (storedLinkAccount : Option Bool) : MState :=
  { user := none
    listeners := []
    handle := false
    storedUser := storedUser
    storedSessionId := storedSessionId
    storedLinkAccount := storedLinkAccount
    apiCalls := []
    notes := []
    handleClears := 0
    navTo := none }

namespace V1

/-- Revision 1 `fetchProfile(tokenManager)` with an explicit token
manager: `lookup` call, then `persistSession` of the returned profile with
the given `tokenManager` attached; a failed lookup changes no state. -/
def fetchProfileWith (tm : TokenManager) (lookupRes : Except String Profile) (s : MState) :
    MState × Except String Unit :=
  let s1 := { s with apiCalls := s.apiCalls ++ ["lookup"] }
  match lookupRes with
  | Except.error e => (s1, Except.error e)
  | Except.ok p =>
    (persistSession s1 { profile := p, tokenManager := tm }, Except.ok ())

/-- Revision 1 constructor, after the asynchronous `storage.get` resolves:
if a session was persisted, adopt it (`this.user = JSON.parse(user)`) and
call `fetchProfile()` (whose default token manager is the adopted one);
otherwise do nothing.  Returns the final state and the rejection, if any,
of the un-awaited `fetchProfile()` promise. -/
def construct (storedUser : Option Session) (storedSessionId : Option String)
    (storedLinkAccount : Option Bool) (lookupRes : Except String Profile) :
    MState × Option String :=
  let s0 := initialState storedUser storedSessionId storedLinkAccount
  match storedUser with
  | none => (s0, none)
  | some u =>
    let p := fetchProfileWith u.tokenManager lookupRes { s0 with user := some u }
    match p.2 with
    | Except.ok _ => (p.1, none)
    | Except.error e => (p.1, some e)

end V1

namespace V2

/-- Revision 2 `fetchProfile(tokenManager)` with an explicit token
manager: `lookup` call, then `setState` (persist and notify both true) of
the returned profile with the given `tokenManager` attached. -/
def fetchProfileWith (tm : TokenManager) (lookupRes : Except String Profile) (s : MState) :
    MState × Except String Unit :=
  let s1 := { s with apiCalls := s.apiCalls ++ ["lookup"] }
  match lookupRes with
  | Except.error e => (s1, Except.error e)
  | Except.ok p =>
    (setState s1 (some { profile := p, tokenManager := tm }) true true, Except.ok ())

/-- Revision 2 constructor, after the asynchronous `storage.get` resolves:
`setState(JSON.parse(user), false)` adopts the persisted value (notifying,
though no listener can be registered yet); when a user is present,
`refreshIdToken()` runs, a successful refresh is followed by
`fetchProfile()` (on the refreshed token manager), a refresh failure with
message TOKEN_EXPIRED becomes `signOut()`, and any other failure is
rethrown out of the un-awaited promise chain.  Returns the final state and
that un-surfaced rejection, if any. -/
def construct (storedUser : Option Session) (storedSessionId : Option String)
    (storedLinkAccount : Option Bool) (now : Int) (refreshRes : Except String TokenData)
    (lookupRes : Except String Profile) : MState × Option String :=
  let s0 := initialState storedUser storedSessionId storedLinkAccount
  let s1 := setState s0 storedUser false true
  match s1.user with
  | none => (s1, none)
  | some _ =>
    let p := refreshIdToken now refreshRes s1
    match p.2 with
    | Except.ok _ =>
      match p.1.user with
      | some u2 =>
        let q := fetchProfileWith u2.tokenManager lookupRes p.1
        match q.2 with
        | Except.ok _ => (q.1, none)
        | Except.error e => (q.1, some e)
      | none => (p.1, none)
    | Except.error e =>
      if e = "TOKEN_EXPIRED" then (signOut p.1, none) else (p.1, some e)

end V2

/-- Instance configuration relevant to the provider flows. -/
structure Config where
  redirectUri : Option String
  providers : List String
deriving Repr, DecidableEq

namespace V1

/-- Revision 1 `signInWithProvider(options)` up to the point where the
page navigates away (or the call rejects): redirect-target check, then
`enforceAuth` when a link was requested (throw when signed out, otherwise
`refreshIdToken`), then the configured-provider check, then the
`createAuthUri` discovery call, then the two flow-state writes, then
`location.assign(authUri)`. -/
def signInWithProvider (cfg : Config) (provider : String) (linkAccount : Bool)
    (now : Int) (refreshRes : Except String TokenData)
    (discoveryRes : Except String (String × String)) (s : MState) :
    MState × Except String Unit :=
  match cfg.redirectUri with
  | none =>
    (s, Except.error "In order to use an Identity provider you should initiate the Auth instance with a redirectUri.")
  | some _ =>
    let afterAuth : MState × Except String Unit :=
      if linkAccount then
        match s.user with
        | none => (s, Except.error "The user must be logged-in to use this method.")
        | some _ => refreshIdToken now refreshRes s
      else (s, Except.ok ())
    match afterAuth.2 with
    | Except.error e => (afterAuth.1, Except.error e)
    | Except.ok _ =>
      let s1 := afterAuth.1
      if provider ∈ cfg.providers then
        let s2 := { s1 with apiCalls := s1.apiCalls ++ ["createAuthUri"] }
        match discoveryRes with
        | Except.error e => (s2, Except.error e)
        | Except.ok (authUri, sessionId) =>
          let s3 := { s2 with storedSessionId := some sessionId }
          let s4 := if linkAccount then { s3 with storedLinkAccount := some true } else s3
          ({ s4 with navTo := some authUri }, Except.ok ())
      else
        (s1, Except.error ("You have not configured " ++ provider ++ " with this Auth instance."))

/-- Revision 1 `finishProviderSignIn(requestUri)`: read `sessionId` and
`linkAccount` back from storage; throw when a link was pending but the
user is signed out (before removing anything); remove the `LinkAccount`
key; run the `signInWithIdp` exchange; on success fetch and persist the
profile on the exchanged tokens and return the round-tripped `context`.
The `SessionId` key is never removed. -/
def finishProviderSignIn (exchangeRes : Except String (TokenData × Option String))
    (lookupRes : Except String Profile) (s : MState) :
    MState × Except String (Option String) :=
  if s.storedLinkAccount = some true ∧ s.user = none then
    (s, Except.error "Request to Link account was made, but user is no longer signed-in")
  else
    let s1 := { s with storedLinkAccount := none }
    let s2 := { s1 with apiCalls := s1.apiCalls ++ ["signInWithIdp"] }
    match exchangeRes with
    | Except.error e => (s2, Except.error e)
    | Except.ok (d, ctx) =>
      let p := fetchProfileWith (newTokenManager d) lookupRes s2
      match p.2 with
      | Except.error e => (p.1, Except.error e)
      | Except.ok _ => (p.1, Except.ok ctx)

end V1

namespace V2

/-- Revision 2 `signInWithProvider(options)`: as in revision 1 but with no
configured-provider list check. -/
def signInWithProvider (cfg : Config) (provider : String) (linkAccount : Bool)
    (now : Int) (refreshRes : Except String TokenData)
    (discoveryRes : Except String (String × String)) (s : MState) :
    MState × Except String Unit :=
  match cfg.redirectUri with
  | none =>
    (s, Except.error "In order to use an Identity provider you should initiate the Auth instance with a redirectUri.")
  | some _ =>
    let afterAuth : MState × Except String Unit :=
      if linkAccount then
        match s.user with
        | none => (s, Except.error "The user must be logged-in to use this method.")
        | some _ => refreshIdToken now refreshRes s
      else (s, Except.ok ())
    match afterAuth.2 with
    | Except.error e => (afterAuth.1, Except.error e)
    | Except.ok _ =>
      let s1 := afterAuth.1
      let s2 := { s1 with apiCalls := s1.apiCalls ++ ["createAuthUri"] }
      match discoveryRes with
      | Except.error e => (s2, Except.error e)
      | Except.ok (authUri, sessionId) =>
        let s3 := { s2 with storedSessionId := some sessionId }
        let s4 := if linkAccount then { s3 with storedLinkAccount := some true } else s3
        ({ s4 with navTo := some authUri }, Except.ok ())

/-- Revision 2 `finishProviderSignIn(requestUri)`: same flow-state
handling as revision 1; the profile write goes through `setState`. -/
def finishProviderSignIn (exchangeRes : Except String (TokenData × Option String))
    (lookupRes : Except String Profile) (s : MState) :
    MState × Except String (Option String) :=
  if s.storedLinkAccount = some true ∧ s.user = none then
    (s, Except.error "Request to Link account was made, but user is no longer signed-in")
  else
    let s1 := { s with storedLinkAccount := none }
    let s2 := { s1 with apiCalls := s1.apiCalls ++ ["signInWithIdp"] }
    match exchangeRes with
    | Except.error e => (s2, Except.error e)
    | Except.ok (d, ctx) =>
      let p := fetchProfileWith (newTokenManager d) lookupRes s2
      match p.2 with
      | Except.error e => (p.1, Except.error e)
      | Except.ok _ => (p.1, Except.ok ctx)

end V2

/-- A fetch `Request` as far as this library observes it: the resource
plus the `Authorization` header it may set. -/
structure Request where
  url : String
  authHeader : Option String
deriving Repr, DecidableEq

namespace V1

/-- Revision 1 `authorizedRequest(resource, init)`: when a user is signed
in, refresh the token if needed and set the `Authorization` header; when
no user is signed in, forward the constructed request to `fetch`
untouched.  Returns the final state, the request handed to `fetch`, and
the rejection, if any. -/
def authorizedRequest (now : Int) (refreshRes : Except String TokenData) (s : MState)
    (req : Request) : MState × Request × Except String Unit :=
  match s.user with
  | none => (s, req, Except.ok ())
  | some _ =>
    let p := refreshIdToken now refreshRes s
    match p.2 with
    | Except.error e => (p.1, req, Except.error e)
    | Except.ok _ =>
      match p.1.user with
      | some u2 =>
        (p.1, { req with authHeader := some ("Bearer " ++ u2.tokenManager.idToken) }, Except.ok ())
      | none => (p.1, req, Except.error "TypeError: cannot read tokenManager of null")

end V1

namespace V2

/-- Revision 2 `authorizedRequest(resource, init)`: textually identical to
revision 1 (it awaits its own `refreshIdToken`). -/
def authorizedRequest (now : Int) (refreshRes : Except String TokenData) (s : MState)
    (req : Request) : MState × Request × Except String Unit :=
  match s.user with
  | none => (s, req, Except.ok ())
  | some _ =>
    let p := refreshIdToken now refreshRes s
    match p.2 with
    | Except.error e => (p.1, req, Except.error e)
    | Except.ok _ =>
      match p.1.user with
      | some u2 =>
        (p.1, { req with authHeader := some ("Bearer " ++ u2.tokenManager.idToken) }, Except.ok ())
      | none => (p.1, req, Except.error "TypeError: cannot read tokenManager of null")

end V2

/-- Sample token material for concrete runs: expires at t = 1000. -/
def tmSample : TokenManager :=
  { idToken := "id0", refreshToken := "r0", expiresAt := 1000 }

/-- Sample session. -/
def uSample : Session :=
  { profile := [("email", "a@b.c")], tokenManager := tmSample }

/-- Sample successful `token` endpoint response. -/
def dSample : TokenData :=
  { id_token := "id1", refresh_token := "r1", expiresAt := 9000 }

/-- A signed-in state with one listener and the sample session both in
memory and persisted. -/
def sSigned : MState :=
  { user := some uSample
    listeners := [0]
    handle := false
    storedUser := some uSample
    storedSessionId := none
    storedLinkAccount := none
    apiCalls := []
    notes := []
    handleClears := 0
    navTo := none }

/-- Sample request for the authorizedRequest witness. -/
def reqSample : Request := { url := "https://example.org", authHeader := none }

/-- A post-redirect state with a pending link-account flow whose user
signed out mid-flow. -/
def sOrphan : MState := initialState none (some "sid0") (some true)

/-- Instance configuration with no redirect target. -/
def cfgNoRedirect : Config := { redirectUri := none, providers := ["g"] }

/-- Instance configuration with a redirect target and one configured
provider. -/
def cfgFull : Config := { redirectUri := some "redirectHere", providers := ["g"] }

/-- The in-memory state right after the revision-2 constructor adopts a
persisted session (after `setState(JSON.parse(user), false)`). -/
def adopted (u : Session) (sid : Option String) (la : Option Bool) : MState :=
  { user := some u, listeners := [], handle := false, storedUser := some u,
    storedSessionId := sid, storedLinkAccount := la, apiCalls := [], notes := [],
    handleClears := 0, navTo := none }

theorem startInv_fresh (now : Int) (s : MState) (u : Session) (hu : s.user = some u)
    (hf : now < u.tokenManager.expiresAt) : startInv now s = (s, Role.fresh) := by
  simp [startInv, hu, hf]

theorem startInv_joiner (now : Int) (s : MState) (u : Session) (hu : s.user = some u)
    (hexp : u.tokenManager.expiresAt ≤ now) (hh : s.handle = true) :
    startInv now s = (s, Role.joiner) := by
  simp [startInv, hu, hh, not_lt.mpr hexp]

theorem startInv_leader (now : Int) (s : MState) (u : Session) (hu : s.user = some u)
    (hexp : u.tokenManager.expiresAt ≤ now) (hh : s.handle = false) :
    startInv now s = ({ s with handle := true, apiCalls := s.apiCalls ++ ["token"] }, Role.leader) := by
  simp [startInv, hu, hh, not_lt.mpr hexp]

theorem startMany_fresh (now : Int) (u : Session) :
    ∀ (n : Nat) (s : MState), s.user = some u → now < u.tokenManager.expiresAt →
      startMany now n s = (s, List.replicate n Role.fresh) := by
  intro n
  induction n with
  | zero => intro s _ _; rfl
  | succ m ih =>
    intro s hu hf
    simp [startMany, startInv_fresh now s u hu hf, ih s hu hf, List.replicate_succ]

theorem startMany_joiner (now : Int) (u : Session) :
    ∀ (n : Nat) (s : MState), s.user = some u → u.tokenManager.expiresAt ≤ now →
      s.handle = true → startMany now n s = (s, List.replicate n Role.joiner) := by
  intro n
  induction n with
  | zero => intro s _ _ _; rfl
  | succ m ih =>
    intro s hu hexp hh
    simp [startMany, startInv_joiner now s u hu hexp hh, ih s hu hexp hh, List.replicate_succ]

theorem startMany_leader (now : Int) (u : Session) (n : Nat) (s : MState)
    (hu : s.user = some u) (hexp : u.tokenManager.expiresAt ≤ now) (hh : s.handle = false) :
    startMany now (n + 1) s =
      ({ s with handle := true, apiCalls := s.apiCalls ++ ["token"] },
        Role.leader :: List.replicate n Role.joiner) := by
  have h2 := startMany_joiner now u n { s with handle := true, apiCalls := s.apiCalls ++ ["token"] }
    (by simpa using hu) hexp (by rfl)
  simp [startMany, startInv_leader now s u hu hexp hh, h2]

theorem settleV1_apiCalls (r : Except String TokenData) (s : MState) :
    (V1.settle r s).apiCalls = s.apiCalls ∧ (V1.settle r s).handle = false ∧
      (V1.settle r s).handleClears = s.handleClears + 1 := by
  cases r with
  | error e => simp [V1.settle]
  | ok d => cases hu : s.user <;> simp [V1.settle, hu, V1.persistSession, emit]

theorem settleV2_apiCalls (r : Except String TokenData) (s : MState) :
    (V2.settle r s).apiCalls = s.apiCalls ∧ (V2.settle r s).handle = false ∧
      (V2.settle r s).handleClears = s.handleClears + 1 := by
  cases r with
  | error e => simp [V2.settle]
  | ok d => cases hu : s.user <;> simp [V2.settle, hu, V2.setState, emit]

theorem roleOutcome_expired (r : Except String TokenData) (n : Nat) :
    (Role.leader :: List.replicate n Role.joiner).map (roleOutcome r) =
      List.replicate (n + 1) (r.map fun _ => ()) := by
  simp [roleOutcome, List.map_replicate, List.replicate_succ]

theorem runRefreshV1_fresh (now : Int) (r : Except String TokenData) (n : Nat) (s : MState)
    (u : Session) (hu : s.user = some u) (hf : now < u.tokenManager.expiresAt) :
    V1.runRefresh now r n s = (s, List.replicate n (Except.ok ())) := by
  have hs := startMany_fresh now u n s hu hf
  have hmem : Role.leader ∉ List.replicate n Role.fresh := by
    intro h
    have := List.eq_of_mem_replicate h
    exact absurd this (by decide)
  simp [V1.runRefresh, hs, hmem, roleOutcome, List.map_replicate]

theorem runRefreshV2_fresh (now : Int) (r : Except String TokenData) (n : Nat) (s : MState)
    (u : Session) (hu : s.user = some u) (hf : now < u.tokenManager.expiresAt) :
    V2.runRefresh now r n s = (s, List.replicate n (Except.ok ())) := by
  have hs := startMany_fresh now u n s hu hf
  have hmem : Role.leader ∉ List.replicate n Role.fresh := by
    intro h
    have := List.eq_of_mem_replicate h
    exact absurd this (by decide)
  simp [V2.runRefresh, hs, hmem, roleOutcome, List.map_replicate]

theorem runRefreshV1_expired (now : Int) (r : Except String TokenData) (n : Nat) (s : MState)
    (u : Session) (hu : s.user = some u) (hexp : u.tokenManager.expiresAt ≤ now)
    (hh : s.handle = false) :
    V1.runRefresh now r (n + 1) s =
      (V1.settle r { s with handle := true, apiCalls := s.apiCalls ++ ["token"] },
        List.replicate (n + 1) (r.map fun _ => ())) := by
  have hs := startMany_leader now u n s hu hexp hh
  simp [V1.runRefresh, hs, roleOutcome, List.replicate_succ]

theorem runRefreshV2_expired (now : Int) (r : Except String TokenData) (n : Nat) (s : MState)
    (u : Session) (hu : s.user = some u) (hexp : u.tokenManager.expiresAt ≤ now)
    (hh : s.handle = false) :
    V2.runRefresh now r (n + 1) s =
      (V2.settle r { s with handle := true, apiCalls := s.apiCalls ++ ["token"] },
        List.replicate (n + 1) (r.map fun _ => ())) := by
  have hs := startMany_leader now u n s hu hexp hh
  simp [V2.runRefresh, hs, roleOutcome, List.replicate_succ]

/-- Claim C1: for every store whose current session has an expired token
and every number N >= 2 of concurrently issued refreshIdToken invocations
against that store, exactly one remote refresh network call is issued,
every one of the N invocations resolves to the same outcome (the same
success or the same failure), and the in-flight handle
(`refreshRequest` / `_ref`) is cleared exactly once, when that single call
settles — in both revisions of the code. -/
theorem c1_refresh_single_flight (now : Int) (r : Except String TokenData) (n : Nat)
    (s : MState) (u : Session) (hn : 2 ≤ n) (hu : s.user = some u)
    (hexp : u.tokenManager.expiresAt ≤ now) (hq : s.handle = false) :
    ((V1.runRefresh now r n s).1.apiCalls = s.apiCalls ++ ["token"] ∧
      (V1.runRefresh now r n s).2 = List.replicate n (r.map fun _ => ()) ∧
      (V1.runRefresh now r n s).1.handleClears = s.handleClears + 1 ∧
      (V1.runRefresh now r n s).1.handle = false) ∧
    ((V2.runRefresh now r n s).1.apiCalls = s.apiCalls ++ ["token"] ∧
      (V2.runRefresh now r n s).2 = List.replicate n (r.map fun _ => ()) ∧
      (V2.runRefresh now r n s).1.handleClears = s.handleClears + 1 ∧
      (V2.runRefresh now r n s).1.handle = false) := by
  obtain ⟨m, rfl⟩ : ∃ m, n = m + 1 := ⟨n - 1, by omega⟩
  have h1 := runRefreshV1_expired now r m s u hu hexp hq
  have h2 := runRefreshV2_expired now r m s u hu hexp hq
  constructor
  · refine ⟨?_, ?_, ?_, ?_⟩
    · rw [h1]; simpa using (settleV1_apiCalls r _).1
    · rw [h1]
    · rw [h1]; simpa using (settleV1_apiCalls r _).2.2
    · rw [h1]; simpa using (settleV1_apiCalls r _).2.1
  · refine ⟨?_, ?_, ?_, ?_⟩
    · rw [h2]; simpa using (settleV2_apiCalls r _).1
    · rw [h2]
    · rw [h2]; simpa using (settleV2_apiCalls r _).2.2
    · rw [h2]; simpa using (settleV2_apiCalls r _).2.1

/-- Witness for C1: a concrete expired store, N = 2, a successful refresh
response. -/
theorem c1_refresh_single_flight_witness :
    (2 ≤ 2 ∧ sSigned.user = some uSample ∧ uSample.tokenManager.expiresAt ≤ 2000 ∧
      sSigned.handle = false) ∧
    ((V1.runRefresh 2000 (Except.ok dSample) 2 sSigned).1.apiCalls =
        sSigned.apiCalls ++ ["token"] ∧
      (V1.runRefresh 2000 (Except.ok dSample) 2 sSigned).2 =
        List.replicate 2 ((Except.ok dSample).map fun _ => ()) ∧
      (V1.runRefresh 2000 (Except.ok dSample) 2 sSigned).1.handleClears =
        sSigned.handleClears + 1 ∧
      (V1.runRefresh 2000 (Except.ok dSample) 2 sSigned).1.handle = false) ∧
    ((V2.runRefresh 2000 (Except.ok dSample) 2 sSigned).1.apiCalls =
        sSigned.apiCalls ++ ["token"] ∧
      (V2.runRefresh 2000 (Except.ok dSample) 2 sSigned).2 =
        List.replicate 2 ((Except.ok dSample).map fun _ => ()) ∧
      (V2.runRefresh 2000 (Except.ok dSample) 2 sSigned).1.handleClears =
        sSigned.handleClears + 1 ∧
      (V2.runRefresh 2000 (Except.ok dSample) 2 sSigned).1.handle = false) := by
  refine ⟨by decide, ?_, ?_⟩
  · exact (c1_refresh_single_flight 2000 (Except.ok dSample) 2 sSigned uSample
      (by decide) (by decide) (by decide) (by decide)).1
  · exact (c1_refresh_single_flight 2000 (Except.ok dSample) 2 sSigned uSample
      (by decide) (by decide) (by decide) (by decide)).2

/-- Claim C7: for every signed-in session whose token expiry lies strictly
in the future at the time of the call, refreshIdToken returns immediately
with a successful outcome, issues zero remote calls and leaves the state
(in memory and persisted) entirely unchanged, in both revisions. -/
theorem c7_fresh_token_noop (now : Int) (r : Except String TokenData) (s : MState)
    (u : Session) (hu : s.user = some u) (hf : now < u.tokenManager.expiresAt) :
    V1.refreshIdToken now r s = (s, Except.ok ()) ∧
    V2.refreshIdToken now r s = (s, Except.ok ()) := by
  constructor
  · simp [V1.refreshIdToken, runRefreshV1_fresh now r 1 s u hu hf]
  · simp [V2.refreshIdToken, runRefreshV2_fresh now r 1 s u hu hf]

/-- Witness for C7: the sample store at a time strictly before expiry. -/
theorem c7_fresh_token_noop_witness :
    (sSigned.user = some uSample ∧ (500 : Int) < uSample.tokenManager.expiresAt) ∧
    V1.refreshIdToken 500 (Except.ok dSample) sSigned = (sSigned, Except.ok ()) ∧
    V2.refreshIdToken 500 (Except.ok dSample) sSigned = (sSigned, Except.ok ()) := by
  refine ⟨by decide, ?_, ?_⟩
  · exact (c7_fresh_token_noop 500 (Except.ok dSample) sSigned uSample rfl (by decide)).1
  · exact (c7_fresh_token_noop 500 (Except.ok dSample) sSigned uSample rfl (by decide)).2

/-- Claim C2, counterexample: in revision 1 a successful token-only
refresh does emit an observer notification, because `persistSession`
always calls `emit()`: a concrete signed-in store with one listener and an
expired token starts with an empty notification trace and ends with one
notification carrying the token-refreshed session. -/
theorem c2_refresh_notifies_counterexample :
    (V1.refreshIdToken 2000 (Except.ok dSample) sSigned).2 = Except.ok () ∧
    sSigned.notes = [] ∧
    (V1.refreshIdToken 2000 (Except.ok dSample) sSigned).1.notes =
      [(0, some { profile := uSample.profile, tokenManager := newTokenManager dSample })] := by
  decide

/-- Claim C2 as amended: on every successful refresh of a signed-in
session, both revisions replace only `tokenManager` (profile fields,
listeners and the flow-state keys unchanged) and persist the new session;
revision 1 (`persistSession`) emits an observer notification for this
token-only change, while revision 2 (`setState` with notify = false)
suppresses it. -/
theorem c2_refresh_frame (now : Int) (d : TokenData) (s : MState) (u : Session)
    (hu : s.user = some u) (hexp : u.tokenManager.expiresAt ≤ now) (hq : s.handle = false) :
    ((V1.refreshIdToken now (Except.ok d) s).2 = Except.ok () ∧
      (V1.refreshIdToken now (Except.ok d) s).1.user =
        some { profile := u.profile, tokenManager := newTokenManager d } ∧
      (V1.refreshIdToken now (Except.ok d) s).1.storedUser =
        some { profile := u.profile, tokenManager := newTokenManager d } ∧
      (V1.refreshIdToken now (Except.ok d) s).1.apiCalls = s.apiCalls ++ ["token"] ∧
      (V1.refreshIdToken now (Except.ok d) s).1.listeners = s.listeners ∧
      (V1.refreshIdToken now (Except.ok d) s).1.storedSessionId = s.storedSessionId ∧
      (V1.refreshIdToken now (Except.ok d) s).1.storedLinkAccount = s.storedLinkAccount ∧
      (V1.refreshIdToken now (Except.ok d) s).1.notes = s.notes ++ s.listeners.map
        (fun l => (l, some { profile := u.profile, tokenManager := newTokenManager d }))) ∧
    ((V2.refreshIdToken now (Except.ok d) s).2 = Except.ok () ∧
      (V2.refreshIdToken now (Except.ok d) s).1.user =
        some { profile := u.profile, tokenManager := newTokenManager d } ∧
      (V2.refreshIdToken now (Except.ok d) s).1.storedUser =
        some { profile := u.profile, tokenManager := newTokenManager d } ∧
      (V2.refreshIdToken now (Except.ok d) s).1.apiCalls = s.apiCalls ++ ["token"] ∧
      (V2.refreshIdToken now (Except.ok d) s).1.listeners = s.listeners ∧
      (V2.refreshIdToken now (Except.ok d) s).1.storedSessionId = s.storedSessionId ∧
      (V2.refreshIdToken now (Except.ok d) s).1.storedLinkAccount = s.storedLinkAccount ∧
      (V2.refreshIdToken now (Except.ok d) s).1.notes = s.notes) := by
  have h1 := runRefreshV1_expired now (Except.ok d) 0 s u hu hexp hq
  have h2 := runRefreshV2_expired now (Except.ok d) 0 s u hu hexp hq
  constructor
  · refine ⟨?_, ?_, ?_, ?_, ?_, ?_, ?_, ?_⟩ <;>
      simp [V1.refreshIdToken, h1, V1.settle, hu, V1.persistSession, emit, Except.map]
  · refine ⟨?_, ?_, ?_, ?_, ?_, ?_, ?_, ?_⟩ <;>
      simp [V2.refreshIdToken, h2, V2.settle, hu, V2.setState, emit, Except.map]

/-- Witness for C2 as amended: the sample expired store. -/
theorem c2_refresh_frame_witness :
    (sSigned.user = some uSample ∧ uSample.tokenManager.expiresAt ≤ (2000 : Int) ∧
      sSigned.handle = false) ∧
    (V1.refreshIdToken 2000 (Except.ok dSample) sSigned).1.notes = sSigned.notes ++
      sSigned.listeners.map
        (fun l => (l, some { profile := uSample.profile, tokenManager := newTokenManager dSample })) ∧
    (V2.refreshIdToken 2000 (Except.ok dSample) sSigned).1.notes = sSigned.notes := by
  refine ⟨by decide, ?_, ?_⟩
  · exact (c2_refresh_frame 2000 dSample sSigned uSample rfl (by decide) rfl).1.2.2.2.2.2.2.2
  · exact (c2_refresh_frame 2000 dSample sSigned uSample rfl (by decide) rfl).2.2.2.2.2.2.2.2

/-- Claim C8: signOut is replacing the current session with absence with
persist and notify both enabled — the two revisions produce the same
state, which is exactly `setState none true true` — it issues no remote
calls, each call notifies every observer with the absent value, and it is
idempotent on the resulting session state (no in-memory session and no
persisted session after one call or after two). -/
theorem c8_signout_replace_absent (s : MState) :
    V2.signOut s = V2.setState s none true true ∧
    V1.signOut s = V2.setState s none true true ∧
    (V1.signOut s).user = none ∧ (V1.signOut s).storedUser = none ∧
    (V1.signOut (V1.signOut s)).user = none ∧
    (V1.signOut (V1.signOut s)).storedUser = none ∧
    (V2.signOut (V2.signOut s)).user = none ∧
    (V2.signOut (V2.signOut s)).storedUser = none ∧
    (V1.signOut s).apiCalls = s.apiCalls ∧
    (V2.signOut s).apiCalls = s.apiCalls ∧
    (V1.signOut (V1.signOut s)).apiCalls = s.apiCalls ∧
    (V2.signOut (V2.signOut s)).apiCalls = s.apiCalls ∧
    (V1.signOut s).notes = s.notes ++ s.listeners.map (fun l => (l, none)) ∧
    (V2.signOut s).notes = s.notes ++ s.listeners.map (fun l => (l, none)) := by
  refine ⟨?_, ?_, ?_, ?_, ?_, ?_, ?_, ?_, ?_, ?_, ?_, ?_, ?_, ?_⟩ <;>
    simp [V1.signOut, V2.signOut, V2.setState, emit]

theorem notesTo_append (g : Nat) (a b : List (Nat × Option Session)) :
    notesTo g (a ++ b) = notesTo g a + notesTo g b := by
  simp [notesTo, List.filter_append]

theorem notesTo_map (g : Nat) (v : Option Session) (l : List Nat) :
    notesTo g (l.map fun x => (x, v)) = l.count g := by
  induction l with
  | nil => rfl
  | cons a t ih =>
    by_cases h : a = g <;>
      simp [notesTo, List.filter_cons, List.count_cons, h, ih, notesTo] <;>
      simpa [notesTo] using ih

theorem count_filter_self (f : Nat) (l : List Nat) :
    (l.filter (fun x => !decide (x = f))).count f = 0 := by
  induction l with
  | nil => rfl
  | cons a t ih =>
    by_cases h : a = f <;> simp [List.filter_cons, List.count_cons, h, ih]

theorem count_filter_other (f g : Nat) (hg : g ≠ f) (l : List Nat) :
    (l.filter (fun x => !decide (x = f))).count g = l.count g := by
  induction l with
  | nil => rfl
  | cons a t ih =>
    by_cases h : a = f
    · subst h
      simp [List.filter_cons, List.count_cons, ih, Ne.symm hg, hg]
    · simp [List.filter_cons, List.count_cons, h, ih]

/-- Claim C9: the unsubscribe capability returned by `listen` removes all
registrations of exactly that observer and no others (set-difference on
the listener list), invoking it is idempotent, and after subscribe then
unsubscribe then a notifying state change the unsubscribed observer
receives zero further notifications while a distinct observer with one
registration receives exactly one. -/
theorem c9_unsubscribe_set_difference (s : MState) (f g : Nat) :
    unsubscribe f (unsubscribe f s) = unsubscribe f s ∧
    (unsubscribe f s).listeners = s.listeners.filter (fun fn => fn ≠ f) ∧
    (unsubscribe f s).listeners.count f = 0 ∧
    (g ≠ f → (unsubscribe f s).listeners.count g = s.listeners.count g) ∧
    notesTo f (emit (unsubscribe f (listen f s))).notes = notesTo f s.notes ∧
    (g ≠ f → s.listeners.count g = 1 →
      notesTo g (emit (unsubscribe f (listen f s))).notes = notesTo g s.notes + 1) := by
  have hfilter : (s.listeners ++ [f]).filter (fun fn => fn ≠ f) =
      s.listeners.filter (fun fn => fn ≠ f) := by
    simp [List.filter_append]
  refine ⟨?_, rfl, ?_, ?_, ?_, ?_⟩
  · simp [unsubscribe, List.filter_filter]
  · simpa [unsubscribe] using count_filter_self f s.listeners
  · intro hg; simpa [unsubscribe] using count_filter_other f g hg s.listeners
  · simp [emit, listen, unsubscribe, hfilter, notesTo_append, notesTo_map, count_filter_self]
  · intro hg h1
    simp [emit, listen, unsubscribe, hfilter, notesTo_append, notesTo_map,
      count_filter_other f g hg, h1]

/-- Witness for C9: listeners [5, 3], unsubscribing 3, observing 5. -/
theorem c9_unsubscribe_witness :
    ((5 : Nat) ≠ (3 : Nat) ∧
      (listen 3 (listen 5 (initialState none none none))).listeners.count 5 = 1) ∧
    notesTo 3 (emit (unsubscribe 3 (listen 3 (listen 3 (listen 5 (initialState none none none)))))).notes =
      notesTo 3 (listen 3 (listen 5 (initialState none none none))).notes ∧
    notesTo 5 (emit (unsubscribe 3 (listen 3 (listen 3 (listen 5 (initialState none none none)))))).notes =
      notesTo 5 (listen 3 (listen 5 (initialState none none none))).notes + 1 := by
  refine ⟨by decide, ?_, ?_⟩
  · exact (c9_unsubscribe_set_difference (listen 3 (listen 5 (initialState none none none))) 3 5).2.2.2.2.1
  · exact (c9_unsubscribe_set_difference (listen 3 (listen 5 (initialState none none none))) 3 5).2.2.2.2.2
      (by decide) (by decide)

/-- Claim C10: authorizedRequest while no user is signed in performs no
token refresh (zero remote auth calls), attaches no Authorization header,
forwards the request to fetch exactly as constructed, and leaves the
stored session state unchanged, in both revisions. -/
theorem c10_authorized_request_signed_out (now : Int) (r : Except String TokenData)
    (s : MState) (req : Request) (hu : s.user = none) :
    V1.authorizedRequest now r s req = (s, req, Except.ok ()) ∧
    V2.authorizedRequest now r s req = (s, req, Except.ok ()) := by
  constructor <;> simp [V1.authorizedRequest, V2.authorizedRequest, hu]

/-- Witness for C10: a signed-out instance and a concrete request. -/
theorem c10_authorized_request_signed_out_witness :
    (initialState none none none).user = none ∧
    V1.authorizedRequest 0 (Except.ok dSample) (initialState none none none) reqSample =
      (initialState none none none, reqSample, Except.ok ()) ∧
    V2.authorizedRequest 0 (Except.ok dSample) (initialState none none none) reqSample =
      (initialState none none none, reqSample, Except.ok ()) := by
  refine ⟨rfl, ?_, ?_⟩
  · exact (c10_authorized_request_signed_out 0 (Except.ok dSample)
      (initialState none none none) reqSample rfl).1
  · exact (c10_authorized_request_signed_out 0 (Except.ok dSample)
      (initialState none none none) reqSample rfl).2

/-- Claim C6: whenever the persisted linkAccount flag is true but no
session is currently present, finishProviderSignIn fails with the
orphaned-link error before the remote token-exchange call is issued and
establishes no session — the state, including the call trace and the
stored session, is untouched — in both revisions. -/
theorem c6_orphaned_link_attempt (s : MState) (exch : Except String (TokenData × Option String))
    (look : Except String Profile) (hla : s.storedLinkAccount = some true)
    (hu : s.user = none) :
    V1.finishProviderSignIn exch look s =
      (s, Except.error "Request to Link account was made, but user is no longer signed-in") ∧
    V2.finishProviderSignIn exch look s =
      (s, Except.error "Request to Link account was made, but user is no longer signed-in") := by
  constructor <;> simp [V1.finishProviderSignIn, V2.finishProviderSignIn, hla, hu]

/-- Witness for C6: the concrete orphaned state with a would-be successful
exchange. -/
theorem c6_orphaned_link_attempt_witness :
    (sOrphan.storedLinkAccount = some true ∧ sOrphan.user = none) ∧
    V1.finishProviderSignIn (Except.ok (dSample, none)) (Except.ok []) sOrphan =
      (sOrphan, Except.error "Request to Link account was made, but user is no longer signed-in") ∧
    V2.finishProviderSignIn (Except.ok (dSample, none)) (Except.ok []) sOrphan =
      (sOrphan, Except.error "Request to Link account was made, but user is no longer signed-in") := by
  refine ⟨by decide, ?_, ?_⟩
  · exact (c6_orphaned_link_attempt sOrphan (Except.ok (dSample, none)) (Except.ok []) rfl rfl).1
  · exact (c6_orphaned_link_attempt sOrphan (Except.ok (dSample, none)) (Except.ok []) rfl rfl).2

theorem fetchProfileWithV1_keys (tm : TokenManager) (look : Except String Profile) (s : MState) :
    (V1.fetchProfileWith tm look s).1.storedSessionId = s.storedSessionId ∧
    (V1.fetchProfileWith tm look s).1.storedLinkAccount = s.storedLinkAccount := by
  cases look <;> simp [V1.fetchProfileWith, V1.persistSession, emit]

theorem fetchProfileWithV2_keys (tm : TokenManager) (look : Except String Profile) (s : MState) :
    (V2.fetchProfileWith tm look s).1.storedSessionId = s.storedSessionId ∧
    (V2.fetchProfileWith tm look s).1.storedLinkAccount = s.storedLinkAccount := by
  cases look <;> simp [V2.fetchProfileWith, V2.setState, emit]

theorem finishV1_keys (s : MState) (exch : Except String (TokenData × Option String))
    (look : Except String Profile) (h : ¬(s.storedLinkAccount = some true ∧ s.user = none)) :
    (V1.finishProviderSignIn exch look s).1.storedSessionId = s.storedSessionId ∧
    (V1.finishProviderSignIn exch look s).1.storedLinkAccount = none := by
  cases exch with
  | error e => simp [V1.finishProviderSignIn, h]
  | ok p =>
    obtain ⟨d, ctx⟩ := p
    cases look with
    | error e => simp [V1.finishProviderSignIn, V1.fetchProfileWith, h]
    | ok pr =>
      simp [V1.finishProviderSignIn, V1.fetchProfileWith, V1.persistSession, emit, h]

theorem finishV2_keys (s : MState) (exch : Except String (TokenData × Option String))
    (look : Except String Profile) (h : ¬(s.storedLinkAccount = some true ∧ s.user = none)) :
    (V2.finishProviderSignIn exch look s).1.storedSessionId = s.storedSessionId ∧
    (V2.finishProviderSignIn exch look s).1.storedLinkAccount = none := by
  cases exch with
  | error e => simp [V2.finishProviderSignIn, h]
  | ok p =>
    obtain ⟨d, ctx⟩ := p
    cases look with
    | error e => simp [V2.finishProviderSignIn, V2.fetchProfileWith, h]
    | ok pr =>
      simp [V2.finishProviderSignIn, V2.fetchProfileWith, V2.setState, emit, h]

/-- Claim C4, counterexample: the pending-flow state does survive some
resumptions.  On a failed orphaned-link resumption the LinkAccount key is
still present afterwards (the code throws before deleting it), and even on
a fully successful resumption the SessionId key is never deleted. -/
theorem c4_flow_state_counterexample :
    (V1.finishProviderSignIn (Except.ok (dSample, none)) (Except.ok []) sOrphan).1.storedLinkAccount
        = some true ∧
    (V1.finishProviderSignIn (Except.ok (dSample, none)) (Except.ok [])
        { sSigned with storedSessionId := some "sid0" }).2 = Except.ok none ∧
    (V1.finishProviderSignIn (Except.ok (dSample, none)) (Except.ok [])
        { sSigned with storedSessionId := some "sid0" }).1.storedSessionId = some "sid0" := by
  decide

/-- Claim C4 as amended: on every post-redirect resolution the persisted
sessionId and linkAccount values are read; when the orphaned-link check
does not fire, the LinkAccount key is deleted before the exchange and
stays deleted whatever the outcome of the exchange and of the profile
fetch; when the orphaned-link check fires (pending link and no session),
the resolution fails with the state untouched, so the LinkAccount key
survives; and the SessionId key is never deleted on any path.  Both
revisions behave identically. -/
theorem c4_flow_state_cleanup (s : MState) (exch : Except String (TokenData × Option String))
    (look : Except String Profile) :
    ((V1.finishProviderSignIn exch look s).1.storedSessionId = s.storedSessionId ∧
      (V2.finishProviderSignIn exch look s).1.storedSessionId = s.storedSessionId) ∧
    (¬(s.storedLinkAccount = some true ∧ s.user = none) →
      (V1.finishProviderSignIn exch look s).1.storedLinkAccount = none ∧
      (V2.finishProviderSignIn exch look s).1.storedLinkAccount = none) ∧
    (s.storedLinkAccount = some true ∧ s.user = none →
      (V1.finishProviderSignIn exch look s).1 = s ∧
      (V2.finishProviderSignIn exch look s).1 = s) := by
  by_cases h : s.storedLinkAccount = some true ∧ s.user = none
  · refine ⟨⟨?_, ?_⟩, fun hn => absurd h hn, fun _ => ⟨?_, ?_⟩⟩ <;>
      simp [V1.finishProviderSignIn, V2.finishProviderSignIn, h]
  · exact ⟨⟨(finishV1_keys s exch look h).1, (finishV2_keys s exch look h).1⟩,
      fun _ => ⟨(finishV1_keys s exch look h).2, (finishV2_keys s exch look h).2⟩,
      fun hc => absurd hc h⟩

/-- Witness for C4 as amended: the no-orphan branch at a signed-in state
and the orphan branch at the orphaned state. -/
theorem c4_flow_state_cleanup_witness :
    (¬(sSigned.storedLinkAccount = some true ∧ sSigned.user = none) ∧
      (V1.finishProviderSignIn (Except.ok (dSample, none)) (Except.ok []) sSigned).1.storedLinkAccount
          = none ∧
      (V2.finishProviderSignIn (Except.ok (dSample, none)) (Except.ok []) sSigned).1.storedLinkAccount
          = none) ∧
    ((sOrphan.storedLinkAccount = some true ∧ sOrphan.user = none) ∧
      (V1.finishProviderSignIn (Except.ok (dSample, none)) (Except.ok []) sOrphan).1 = sOrphan) := by
  constructor
  · refine ⟨by decide, ?_⟩
    exact (c4_flow_state_cleanup sSigned (Except.ok (dSample, none)) (Except.ok [])).2.1
      (by decide)
  · refine ⟨by decide, ?_⟩
    exact ((c4_flow_state_cleanup sOrphan (Except.ok (dSample, none)) (Except.ok [])).2.2
      (by decide)).1

/-- Claim C5: signInWithProvider fails with the missing-redirect-target
error when no redirect target is configured; with linkAccount requested
and no session present it fails with the not-authenticated error; both
failures leave the state entirely untouched (in particular no flow-state
persistence write happens).  On success it persists the discovered
sessionId, persists the LinkAccount key exactly when linkAccount is true,
and navigates to the discovered authorization URL.  Both revisions agree
(revision 1 additionally requires the provider to be configured). -/
theorem c5_provider_signin (cfg : Config) (provider : String) (linkAccount : Bool)
    (now : Int) (r : Except String TokenData) (disc : Except String (String × String))
    (s : MState) :
    (cfg.redirectUri = none →
      V1.signInWithProvider cfg provider linkAccount now r disc s =
        (s, Except.error "In order to use an Identity provider you should initiate the Auth instance with a redirectUri.") ∧
      V2.signInWithProvider cfg provider linkAccount now r disc s =
        (s, Except.error "In order to use an Identity provider you should initiate the Auth instance with a redirectUri.")) ∧
    (cfg.redirectUri ≠ none → linkAccount = true → s.user = none →
      V1.signInWithProvider cfg provider linkAccount now r disc s =
        (s, Except.error "The user must be logged-in to use this method.") ∧
      V2.signInWithProvider cfg provider linkAccount now r disc s =
        (s, Except.error "The user must be logged-in to use this method.")) ∧
    (∀ a sid, cfg.redirectUri ≠ none → linkAccount = false → disc = Except.ok (a, sid) →
      (provider ∈ cfg.providers →
        V1.signInWithProvider cfg provider linkAccount now r disc s =
          ({ s with
              apiCalls := s.apiCalls ++ ["createAuthUri"],
              storedSessionId := some sid,
              navTo := some a }, Except.ok ())) ∧
      V2.signInWithProvider cfg provider linkAccount now r disc s =
        ({ s with
            apiCalls := s.apiCalls ++ ["createAuthUri"],
            storedSessionId := some sid,
            navTo := some a }, Except.ok ())) ∧
    (∀ a sid u, cfg.redirectUri ≠ none → linkAccount = true → s.user = some u →
      now < u.tokenManager.expiresAt → disc = Except.ok (a, sid) →
      (provider ∈ cfg.providers →
        V1.signInWithProvider cfg provider linkAccount now r disc s =
          ({ s with
              apiCalls := s.apiCalls ++ ["createAuthUri"],
              storedSessionId := some sid,
              storedLinkAccount := some true,
              navTo := some a }, Except.ok ())) ∧
      V2.signInWithProvider cfg provider linkAccount now r disc s =
        ({ s with
            apiCalls := s.apiCalls ++ ["createAuthUri"],
            storedSessionId := some sid,
            storedLinkAccount := some true,
            navTo := some a }, Except.ok ())) := by
  refine ⟨?_, ?_, ?_, ?_⟩
  · intro hred
    constructor <;> simp [V1.signInWithProvider, V2.signInWithProvider, hred]
  · intro hred hl hu
    obtain ⟨rr, hrr⟩ := Option.ne_none_iff_exists'.mp hred
    subst hl
    constructor <;> simp [V1.signInWithProvider, V2.signInWithProvider, hrr, hu]
  · intro a sid hred hl hdisc
    obtain ⟨rr, hrr⟩ := Option.ne_none_iff_exists'.mp hred
    subst hl; subst hdisc
    constructor
    · intro hp
      simp [V1.signInWithProvider, hrr, hp]
    · simp [V2.signInWithProvider, hrr]
  · intro a sid u hred hl hu hf hdisc
    obtain ⟨rr, hrr⟩ := Option.ne_none_iff_exists'.mp hred
    subst hl; subst hdisc
    have h1 : V1.refreshIdToken now r s = (s, Except.ok ()) := by
      simp [V1.refreshIdToken, runRefreshV1_fresh now r 1 s u hu hf]
    have h2 : V2.refreshIdToken now r s = (s, Except.ok ()) := by
      simp [V2.refreshIdToken, runRefreshV2_fresh now r 1 s u hu hf]
    constructor
    · intro hp
      simp [V1.signInWithProvider, hrr, hu, h1, hp]
    · simp [V2.signInWithProvider, hrr, hu, h2]

/-- Witness for C5: all four scenarios at concrete inputs. -/
theorem c5_provider_signin_witness :
    (cfgNoRedirect.redirectUri = none ∧
      V1.signInWithProvider cfgNoRedirect "g" false 0 (Except.ok dSample)
          (Except.ok ("authU", "sid1")) sSigned =
        (sSigned, Except.error "In order to use an Identity provider you should initiate the Auth instance with a redirectUri.")) ∧
    (V1.signInWithProvider cfgFull "g" true 0 (Except.ok dSample)
        (Except.ok ("authU", "sid1")) (initialState none none none) =
      (initialState none none none, Except.error "The user must be logged-in to use this method.")) ∧
    (V1.signInWithProvider cfgFull "g" false 0 (Except.ok dSample)
        (Except.ok ("authU", "sid1")) sSigned =
      ({ sSigned with
          apiCalls := sSigned.apiCalls ++ ["createAuthUri"],
          storedSessionId := some "sid1",
          navTo := some "authU" }, Except.ok ())) ∧
    (V2.signInWithProvider cfgFull "g" true 500 (Except.ok dSample)
        (Except.ok ("authU", "sid1")) sSigned =
      ({ sSigned with
          apiCalls := sSigned.apiCalls ++ ["createAuthUri"],
          storedSessionId := some "sid1",
          storedLinkAccount := some true,
          navTo := some "authU" }, Except.ok ())) := by
  refine ⟨⟨rfl, ?_⟩, ?_, ?_, ?_⟩
  · exact ((c5_provider_signin cfgNoRedirect "g" false 0 (Except.ok dSample)
      (Except.ok ("authU", "sid1")) sSigned).1 rfl).1
  · exact ((c5_provider_signin cfgFull "g" true 0 (Except.ok dSample)
      (Except.ok ("authU", "sid1")) (initialState none none none)).2.1
        (by decide) rfl rfl).1
  · exact (((c5_provider_signin cfgFull "g" false 0 (Except.ok dSample)
      (Except.ok ("authU", "sid1")) sSigned).2.2.1 "authU" "sid1"
        (by decide) rfl rfl).1 (by decide))
  · exact ((c5_provider_signin cfgFull "g" true 500 (Except.ok dSample)
      (Except.ok ("authU", "sid1")) sSigned).2.2.2 "authU" "sid1" uSample
        (by decide) rfl rfl (by decide) rfl).2

theorem refreshV2_expired_eq (now : Int) (rr : Except String TokenData) (s : MState)
    (u : Session) (hu : s.user = some u) (hexp : u.tokenManager.expiresAt ≤ now)
    (hq : s.handle = false) :
    V2.refreshIdToken now rr s =
      (V2.settle rr { s with handle := true, apiCalls := s.apiCalls ++ ["token"] },
        rr.map fun _ => ()) := by
  have h := runRefreshV2_expired now rr 0 s u hu hexp hq
  simp [V2.refreshIdToken, h]

theorem adopted_user (u : Session) (sid : Option String) (la : Option Bool) :
    (adopted u sid la).user = some u := rfl

/-- Claim C3, counterexample: in revision 1 construction with a persisted
session attempts no token refresh at all — it performs the profile lookup
directly even though the persisted token is expired — and when that remote
call fails the session remains current and persisted rather than being
cleared. -/
theorem c3_construct_counterexample :
    (V1.construct (some uSample) none none (Except.error "TOKEN_EXPIRED")).1.apiCalls
        = ["lookup"] ∧
    "token" ∉ (V1.construct (some uSample) none none (Except.error "TOKEN_EXPIRED")).1.apiCalls ∧
    (V1.construct (some uSample) none none (Except.error "TOKEN_EXPIRED")).1.user
        = some uSample ∧
    (V1.construct (some uSample) none none (Except.error "TOKEN_EXPIRED")).1.storedUser
        = some uSample := by
  decide

/-- Claim C3 as amended: construction with no persisted session performs
no network activity in either revision; with a persisted session,
revision 1 adopts it and directly fetches a fresh profile (one lookup
call, no token refresh attempt), leaving the adopted session current and
persisted when the fetch fails; revision 2 adopts it, attempts a token
refresh, fetches a fresh profile on refresh success, ends with no current
and no persisted session and no surfaced error when the refresh fails
with TOKEN_EXPIRED, and surfaces any other refresh failure out of the
un-awaited promise chain. -/
theorem c3_construct (u : Session) (sid : Option String) (la : Option Bool)
    (now : Int) (rr : Except String TokenData) (look : Except String Profile) :
    (V1.construct none sid la look = (initialState none sid la, none) ∧
      V2.construct none sid la now rr look = (initialState none sid la, none)) ∧
    ((V1.construct (some u) sid la look).1.apiCalls = ["lookup"] ∧
      (∀ e, look = Except.error e →
        (V1.construct (some u) sid la look).1.user = some u ∧
        (V1.construct (some u) sid la look).1.storedUser = some u) ∧
      (∀ pr, look = Except.ok pr →
        (V1.construct (some u) sid la look).1.user =
          some { profile := pr, tokenManager := u.tokenManager } ∧
        (V1.construct (some u) sid la look).1.storedUser =
          some { profile := pr, tokenManager := u.tokenManager })) ∧
    (u.tokenManager.expiresAt ≤ now →
      ((∀ d pr, rr = Except.ok d → look = Except.ok pr →
        (V2.construct (some u) sid la now rr look).1.apiCalls = ["token", "lookup"] ∧
        (V2.construct (some u) sid la now rr look).1.user =
          some { profile := pr, tokenManager := newTokenManager d } ∧
        (V2.construct (some u) sid la now rr look).2 = none) ∧
      (rr = Except.error "TOKEN_EXPIRED" →
        (V2.construct (some u) sid la now rr look).1.user = none ∧
        (V2.construct (some u) sid la now rr look).1.storedUser = none ∧
        (V2.construct (some u) sid la now rr look).2 = none) ∧
      (∀ e, rr = Except.error e → e ≠ "TOKEN_EXPIRED" →
        (V2.construct (some u) sid la now rr look).2 = some e))) := by
  have hadopt : V2.setState (initialState (some u) sid la) (some u) false true =
      adopted u sid la := by
    simp [V2.setState, emit, initialState, adopted]
  refine ⟨⟨rfl, ?_⟩, ⟨?_, ?_, ?_⟩, ?_⟩
  · simp [V2.construct, V2.setState, emit, initialState]
  · cases look <;>
      simp [V1.construct, V1.fetchProfileWith, V1.persistSession, emit, initialState]
  · intro e he; subst he
    simp [V1.construct, V1.fetchProfileWith, initialState]
  · intro pr hp; subst hp
    simp [V1.construct, V1.fetchProfileWith, V1.persistSession, emit, initialState]
  · intro hnow
    refine ⟨?_, ?_, ?_⟩
    · intro d pr hd hp; subst hd; subst hp
      have hr := refreshV2_expired_eq now (Except.ok d) (adopted u sid la) u rfl hnow rfl
      refine ⟨?_, ?_, ?_⟩ <;>
        (simp only [V2.construct]
         rw [hadopt]
         simp only [adopted_user, Option.some.injEq, hr]
         simp [V2.settle, V2.setState, V2.fetchProfileWith, emit, adopted, Except.map])
    · intro hd; subst hd
      have hr := refreshV2_expired_eq now (Except.error "TOKEN_EXPIRED") (adopted u sid la)
        u rfl hnow rfl
      refine ⟨?_, ?_, ?_⟩ <;>
        (simp only [V2.construct]
         rw [hadopt]
         simp only [adopted_user, Option.some.injEq, hr]
         simp [V2.settle, V2.setState, V2.signOut, emit, adopted, Except.map])
    · intro e hd hne; subst hd
      have hr := refreshV2_expired_eq now (Except.error e) (adopted u sid la) u rfl hnow rfl
      simp only [V2.construct]
      rw [hadopt]
      simp only [adopted_user, Option.some.injEq, hr]
      simp [V2.settle, V2.setState, emit, adopted, Except.map, hne]

/-- Witness for C3 as amended: concrete constructions exercising the
no-session case, the revision-1 failure case, and the revision-2 silent
sign-out case. -/
theorem c3_construct_witness :
    (V1.construct none none none (Except.ok []) = (initialState none none none, none) ∧
      V2.construct none none none 2000 (Except.error "TOKEN_EXPIRED") (Except.ok []) =
        (initialState none none none, none)) ∧
    (V1.construct (some uSample) none none (Except.error "boom")).1.user = some uSample ∧
    (uSample.tokenManager.expiresAt ≤ (2000 : Int) ∧
      (V2.construct (some uSample) none none 2000 (Except.error "TOKEN_EXPIRED")
          (Except.ok [])).1.user = none ∧
      (V2.construct (some uSample) none none 2000 (Except.error "TOKEN_EXPIRED")
          (Except.ok [])).1.storedUser = none ∧
      (V2.construct (some uSample) none none 2000 (Except.error "TOKEN_EXPIRED")
          (Except.ok [])).2 = none) := by
  refine ⟨?_, ?_, ?_⟩
  · exact (c3_construct uSample none none 2000 (Except.error "TOKEN_EXPIRED") (Except.ok [])).1
  · exact ((c3_construct uSample none none 0 (Except.ok dSample)
      (Except.error "boom")).2.1.2.1 "boom" rfl).1
  · refine ⟨by decide, ?_⟩
    have h := ((c3_construct uSample none none 2000 (Except.error "TOKEN_EXPIRED")
      (Except.ok [])).2.2 (by decide)).2.1 rfl
    exact ⟨h.1, h.2.1, h.2.2⟩

end FirebaseAuthLite
